import Mathlib

/-!
Shallow embedding of the pycosm repository (src/pycosm.py and
src/cosm-feed.py): a small client for the Cosm REST API and a CLI
wrapper.  Python objects are modelled as Lean structures, Python
exceptions as an error type threaded through `Except`, the network as
an oracle function from requests to transport results, and every
operation additionally returns the list of HTTP requests it issued, so
that "no network activity" is a provable statement.
-/

namespace Pycosm

/-- JSON values, as produced by Python's `json` module. Objects are
association lists in construction order. -/
inductive Json where
  | null : Json
  | bool : Bool → Json
  | num : Int → Json
  | str : String → Json
  | arr : List Json → Json
  | obj : List (String × Json) → Json

/-- Python exceptions that the embedded code can raise.
`streamIdError` carries the `datastream_id` argument of
`StreamIdError(...)`; `transportError` carries the underlying
transport exception unchanged (the bare `except: raise` re-raises);
`decodeError` is the `ValueError` from `json.loads`;
`attributeError` carries the missing attribute name; `nameError`
carries the unbound name. -/
inductive PyError where
  | streamIdError (datastream_id : Option String) : PyError
  | transportError (e : String) : PyError
  | decodeError : PyError
  | attributeError (name : String) : PyError
  | nameError (name : String) : PyError
deriving DecidableEq

/-- Python's `"%s" % x` conversion for an optional string:
`None` formats as the literal string `"None"`. -/
def pyFormat : Option String → String
  | none => "None"
  | some s => s

/-- Python `repr` of an optional string (`None` or a quoted string). -/
def pyRepr : Option String → String
  | none => "None"
  | some s => String.mk [Char.ofNat 39] ++ s ++ String.mk [Char.ofNat 39]

/-- One HTTP request as assembled by `httplib.HTTPSConnection.request`:
method, host, port, path, optional body string, and the headers dict
(values are the Python objects passed in, so an unset `api_key` stays
`None`). -/
structure Request where
  method : String
  host : String
  port : Nat
  path : String
  body : Option String
  headers : List (String × Option String)
deriving DecidableEq

/-- The response object returned by `connection.getresponse()`:
its `status` and the body that `read()` yields. -/
structure Response where
  status : Nat
  body : String
deriving DecidableEq

/-- The network, as an oracle: either a response or a transport
exception (carried as an opaque string). -/
def Net : Type := Request → Except String Response

/-- `class StreamIdError(Exception)` from src/pycosm.py. Python objects
carry a dynamic attribute dictionary; `__init__` stores its argument
under the attribute name `value` (`self.value = datastream_id`). -/
structure StreamIdError where
  attrs : List (String × Option String)
deriving DecidableEq

/-- `StreamIdError.__init__(self, datastream_id)`: sets `self.value`. -/
def StreamIdError.init (datastream_id : Option String) : StreamIdError :=
  ⟨[("value", datastream_id)]⟩

/-- Python attribute lookup on a `StreamIdError` instance: raises
`AttributeError` when the attribute was never set. -/
def StreamIdError.getattr (e : StreamIdError) (name : String) :
    Except PyError (Option String) :=
  match e.attrs.lookup name with
  | some v => Except.ok v
  | none => Except.error (PyError.attributeError name)

/-- `StreamIdError.__str__(self)`: `return repr(self.datastream_id)` —
it reads the attribute `datastream_id`, not `value`. -/
def StreamIdError.str (e : StreamIdError) : Except PyError String :=
  match e.getattr "datastream_id" with
  | Except.ok v => Except.ok (pyRepr v)
  | Except.error err => Except.error err

/-- The `CosmDataStream` object: three optional fields set by
`__init__(self, feed_id=None, datastream_id=None, api_key=None)`. -/
structure CosmDataStream where
  feed_id : Option String
  datastream_id : Option String
  api_key : Option String
deriving DecidableEq

/-- The GET request `get()` builds when `self.feed_id is not None`:
path `"/v2/feeds/%s/datastreams/%s" % (feed_id, datastream_id)`,
headers `X-ApiKey: self.api_key` and `Accept: application/json`. -/
def CosmDataStream.getRequest (s : CosmDataStream) : Request :=
  { method := "GET"
    host := "api.cosm.com"
    port := 443
    path := "/v2/feeds/" ++ pyFormat s.feed_id ++ "/datastreams/"
              ++ pyFormat s.datastream_id
    body := none
    headers := [("X-ApiKey", s.api_key), ("Accept", some "application/json")] }

/-- `CosmDataStream.get(self)`: if `self.feed_id is not None`, issue the
GET request and return the response (re-raising any transport
exception unchanged); otherwise `raise StreamIdError(self.datastream_id)`.
The second component records the requests issued. -/
def CosmDataStream.get (s : CosmDataStream) (net : Net) :
    Except PyError Response × List Request :=
  match s.feed_id with
  | some _ =>
    match net s.getRequest with
    | Except.ok r => (Except.ok r, [s.getRequest])
    | Except.error e => (Except.error (PyError.transportError e), [s.getRequest])
  | none => (Except.error (PyError.streamIdError s.datastream_id), [])

/-- `CosmDataStream.getDict(self)`: call `get()`, then
`json.loads(response.read())`. The `json.loads` decoder is the oracle
`loads`; `none` models malformed JSON (a `ValueError`). -/
def CosmDataStream.getDict (s : CosmDataStream) (net : Net)
    (loads : String → Option Json) : Except PyError Json × List Request :=
  match s.get net with
  | (Except.ok r, reqs) =>
    match loads r.body with
    | some j => (Except.ok j, reqs)
    | none => (Except.error PyError.decodeError, reqs)
  | (Except.error e, reqs) => (Except.error e, reqs)

/-- The PUT request `put(body_content)` builds: same path as `get()`,
with the caller-supplied body. -/
def CosmDataStream.putRequest (s : CosmDataStream) (body_content : String) :
    Request :=
  { method := "PUT"
    host := "api.cosm.com"
    port := 443
    path := "/v2/feeds/" ++ pyFormat s.feed_id ++ "/datastreams/"
              ++ pyFormat s.datastream_id
    body := some body_content
    headers := [("X-ApiKey", s.api_key), ("Accept", some "application/json")] }

/-- `CosmDataStream.put(self, body_content)`: guarded by
`self.feed_id is not None and self.datastream_id is not None`
(unlike `get()`, which checks only `feed_id`). -/
def CosmDataStream.put (s : CosmDataStream) (net : Net)
    (body_content : String) : Except PyError Response × List Request :=
  match s.feed_id, s.datastream_id with
  | some _, some _ =>
    match net (s.putRequest body_content) with
    | Except.ok r => (Except.ok r, [s.putRequest body_content])
    | Except.error e =>
      (Except.error (PyError.transportError e), [s.putRequest body_content])
  | _, _ => (Except.error (PyError.streamIdError s.datastream_id), [])

/-- The POST request `post(body_content)` builds: the `/datapoints`
sub-resource of the datastream path. -/
def CosmDataStream.postRequest (s : CosmDataStream) (body_content : String) :
    Request :=
  { method := "POST"
    host := "api.cosm.com"
    port := 443
    path := "/v2/feeds/" ++ pyFormat s.feed_id ++ "/datastreams/"
              ++ pyFormat s.datastream_id ++ "/datapoints"
    body := some body_content
    headers := [("X-ApiKey", s.api_key), ("Accept", some "application/json")] }

/-- `CosmDataStream.post(self, body_content)`: guarded, like `get()`,
by `self.feed_id is not None` only. -/
def CosmDataStream.post (s : CosmDataStream) (net : Net)
    (body_content : String) : Except PyError Response × List Request :=
  match s.feed_id with
  | some _ =>
    match net (s.postRequest body_content) with
    | Except.ok r => (Except.ok r, [s.postRequest body_content])
    | Except.error e =>
      (Except.error (PyError.transportError e), [s.postRequest body_content])
  | none => (Except.error (PyError.streamIdError s.datastream_id), [])

/-- The keys of a Python dict, modelled as a duplicate-free
association list in the dict's iteration order: `datapoints.keys()`. -/
def dictKeys (d : List (String × String)) : List String :=
  d.map Prod.fst

/-- Python dict indexing `datapoints[key]` (total on keys of the dict;
defaulted to `""` off the domain, a case `postDatapointsDict` never
reaches because it only indexes with keys from `keys()`). -/
def dictGet (d : List (String × String)) (k : String) : String :=
  (d.lookup k).getD ""

/-- JSON string escaping as in `json.dumps` (the repository only ever
serialises plain timestamp/value strings, for which escaping is the
identity on every character except backslash and double quote). -/
def jsonEscapeChar (c : Char) : String :=
  if c = Char.ofNat 92 then String.mk [Char.ofNat 92, Char.ofNat 92]
  else if c = Char.ofNat 34 then String.mk [Char.ofNat 92, Char.ofNat 34]
  else String.mk [c]

def jsonEscape (s : String) : String :=
  String.join (s.toList.map jsonEscapeChar)

/-- Serialisation of a JSON string literal: quoted and escaped. -/
def dumpsStr (s : String) : String :=
  String.mk [Char.ofNat 34] ++ jsonEscape s ++ String.mk [Char.ofNat 34]

mutual
/-- `json.dumps` with Python's default separators
(`", "` between items, `": "` after keys). -/
def dumps : Json → String
  | Json.null => "null"
  | Json.bool true => "true"
  | Json.bool false => "false"
  | Json.num n => toString n
  | Json.str s => dumpsStr s
  | Json.arr l => "[" ++ dumpsArr l ++ "]"
  | Json.obj l => "\x7b" ++ dumpsObj l ++ "\x7d"

def dumpsArr : List Json → String
  | [] => ""
  | [x] => dumps x
  | x :: y :: rest => dumps x ++ ", " ++ dumpsArr (y :: rest)

def dumpsObj : List (String × Json) → String
  | [] => ""
  | [kv] => dumpsStr kv.1 ++ ": " ++ dumps kv.2
  | kv :: kv2 :: rest =>
    dumpsStr kv.1 ++ ": " ++ dumps kv.2 ++ ", " ++ dumpsObj (kv2 :: rest)
end

/-- The loop body of `postDatapointsDict`: start from
`{"datapoints": []}` and, for each `key` of the input dict in
iteration order, append `{"at": key, "value": datapoints[key]}`. -/
def postDatapointsBody (datapoints : List (String × String)) : Json :=
  Json.obj [("datapoints", Json.arr ((dictKeys datapoints).map
    (fun key => Json.obj [("at", Json.str key),
                          ("value", Json.str (dictGet datapoints key))])))]

/-- `CosmDataStream.postDatapointsDict(self, datapoints)`: build the
body with the loop above, `json.dumps` it, and submit via `post`. -/
def CosmDataStream.postDatapointsDict (s : CosmDataStream) (net : Net)
    (datapoints : List (String × String)) :
    Except PyError Response × List Request :=
  s.post net (dumps (postDatapointsBody datapoints))

/-- `CosmDataStream.delete(self)`: the body is `pass` — it returns
`None` and touches nothing. -/
def CosmDataStream.delete (_s : CosmDataStream) :
    Except PyError Unit × List Request :=
  (Except.ok (), [])

end Pycosm

namespace CosmFeed

open Pycosm

/-- `getopt.GetoptError` (alias `getopt.error`): a message and the
offending option. -/
structure GetoptError where
  msg : String
  opt : String
deriving DecidableEq

/-- Python `s.startswith(pre)`, computed on the character list. -/
def strStartsWith (s pre : String) : Bool :=
  pre.toList.isPrefixOf s.toList

/-- Python `s.endswith(post)`, computed on the character list. -/
def strEndsWith (s post : String) : Bool :=
  post.toList.isSuffixOf s.toList

/-- Python slicing `s[n:]`. -/
def strDrop (s : String) (n : Nat) : String :=
  String.mk (s.toList.drop n)

/-- Python slicing `s[:-n]`. -/
def strDropRight (s : String) (n : Nat) : String :=
  String.mk (s.toList.take (s.toList.length - n))

/-- Python `x in l` for a list of strings. -/
def strListContains (l : List String) (x : String) : Bool :=
  l.any (fun o => o = x)

/-- `getopt.short_has_arg(opt, shortopts)`: scan the short-option
string for `opt` (skipping `:` slots); the option takes an argument
when a `:` follows it. Unknown options raise `GetoptError`. -/
def short_has_arg (opt : Char) : List Char → Except GetoptError Bool
  | [] =>
    Except.error ⟨"option -" ++ String.mk [opt] ++ " not recognized",
      String.mk [opt]⟩
  | c :: rest =>
    if opt = c ∧ c ≠ ':' then
      Except.ok (if rest.head? = some ':' then true else false)
    else short_has_arg opt rest

/-- The option name `'-' + opt` appended by `do_shorts`. -/
def shortOptName (c : Char) : String :=
  "-" ++ String.mk [c]

/-- `getopt.do_shorts`: consume a cluster of short options; an
argument-taking option swallows the rest of the cluster, or the next
word when the cluster is exhausted. -/
def do_shorts (opts : List (String × String)) (optstring : List Char)
    (shortopts : List Char) (args : List String) :
    Except GetoptError (List (String × String) × List String) :=
  match optstring with
  | [] => Except.ok (opts, args)
  | opt :: rest =>
    match short_has_arg opt shortopts with
    | Except.error e => Except.error e
    | Except.ok true =>
      match rest with
      | [] =>
        match args with
        | [] =>
          Except.error ⟨"option -" ++ String.mk [opt] ++ " requires argument",
            String.mk [opt]⟩
        | a :: args2 => Except.ok (opts ++ [(shortOptName opt, a)], args2)
      | _ :: _ => Except.ok (opts ++ [(shortOptName opt, String.mk rest)], args)
    | Except.ok false => do_shorts (opts ++ [(shortOptName opt, "")]) rest shortopts args

/-- Split a long option at its first `=`, as `opt.index('=')` does:
the part before, and `some` of the part after when a `=` occurs. -/
def splitAtEq (s : String) : String × Option String :=
  match s.toList.findIdx? (fun c => c = '=') with
  | some i => (String.mk (s.toList.take i), some (String.mk (s.toList.drop (i + 1))))
  | none => (s, none)

/-- `getopt.long_has_args(opt, longopts)`: unique-prefix matching
against the long-option table; returns whether the matched option
takes an argument and its full name. -/
def long_has_args (opt : String) (longopts : List String) :
    Except GetoptError (Bool × String) :=
  let possibilities := longopts.filter (fun o => strStartsWith o opt)
  if possibilities.isEmpty then
    Except.error ⟨"option --" ++ opt ++ " not recognized", opt⟩
  else if strListContains possibilities opt then Except.ok (false, opt)
  else if strListContains possibilities (opt ++ "=") then Except.ok (true, opt)
  else if possibilities.length > 1 then
    Except.error ⟨"option --" ++ opt ++ " not a unique prefix", opt⟩
  else
    match possibilities with
    | [u] =>
      if strEndsWith u "=" then Except.ok (true, strDropRight u 1)
      else Except.ok (false, u)
    | _ => Except.error ⟨"option --" ++ opt ++ " not a unique prefix", opt⟩

/-- `getopt.do_longs`: handle one `--option` or `--option=value` word. -/
def do_longs (opts : List (String × String)) (optAndArg : String)
    (longopts : List String) (args : List String) :
    Except GetoptError (List (String × String) × List String) :=
  let (opt0, optarg) := splitAtEq optAndArg
  match long_has_args opt0 longopts with
  | Except.error e => Except.error e
  | Except.ok (hasArg, opt) =>
    if hasArg then
      match optarg with
      | none =>
        match args with
        | [] => Except.error ⟨"option --" ++ opt ++ " requires argument", opt⟩
        | a :: rest => Except.ok (opts ++ [("--" ++ opt, a)], rest)
      | some v => Except.ok (opts ++ [("--" ++ opt, v)], args)
    else
      match optarg with
      | some v =>
        if v = "" then Except.ok (opts ++ [("--" ++ opt, "")], args)
        else
          Except.error ⟨"option --" ++ opt ++ " must not have an argument", opt⟩
      | none => Except.ok (opts ++ [("--" ++ opt, "")], args)

/-- The `while` loop of `getopt.getopt`, fuelled by the argument count:
each iteration consumes at least the leading word, so
`args.length + 1` units of fuel are never exhausted. -/
def getoptLoop : Nat → List (String × String) → List String → List Char →
    List String → Except GetoptError (List (String × String) × List String)
  | 0, opts, args, _, _ => Except.ok (opts, args)
  | fuel + 1, opts, args, shortopts, longopts =>
    match args with
    | [] => Except.ok (opts, [])
    | a :: rest =>
      if strStartsWith a "-" = false ∨ a = "-" then Except.ok (opts, a :: rest)
      else if a = "--" then Except.ok (opts, rest)
      else if strStartsWith a "--" then
        match do_longs opts (strDrop a 2) longopts rest with
        | Except.error e => Except.error e
        | Except.ok (opts2, args2) => getoptLoop fuel opts2 args2 shortopts longopts
      else
        match do_shorts opts (strDrop a 1).toList shortopts rest with
        | Except.error e => Except.error e
        | Except.ok (opts2, args2) => getoptLoop fuel opts2 args2 shortopts longopts

/-- `getopt.getopt(args, shortopts, longopts)`. -/
def getopt (args : List String) (shortopts : String) (longopts : List String) :
    Except GetoptError (List (String × String) × List String) :=
  getoptLoop (args.length + 1) [] args shortopts.toList longopts

/-- The option tables of `main`: `"ho:vs:k:"` and
`["help", "output=", "datastream_id=", "api_key="]`. Note the long
table does not contain `streamid` or `apikey`. -/
def cliShortopts : String := "ho:vs:k:"

def cliLongopts : List String :=
  ["help", "output=", "datastream_id=", "api_key="]

/-- The module-level `help_message` string of cosm-feed.py. -/
def help_message : String :=
  "\nQuery the Cosm API for the current state of the specified feed.\n\nUsage: cosm-feed.py [options]\nOptions:\n  -s <datastream ID>\t\tThe datastream ID to query the state of.\n  --streamid=<datastream ID>\tSame as -s.\t\n  -k <api key>\t\t\tThe Cosm API key to use when accessing the service.\n  --apikey=<API key>\t\tSame as -k.\n"

/-- The option-processing `for` loop of `main`: `-h`/`--help` raises
`Usage(help_message)`; `-s`/`--streamid` and `-k`/`--apikey` assign
`datastream_id` and `api_key`; `-v` and `-o`/`--output` set locals
that are never read. -/
def processOpts : List (String × String) → Option String → Option String →
    Except String (Option String × Option String)
  | [], ds, ak => Except.ok (ds, ak)
  | (o, v) :: rest, ds, ak =>
    if o = "-h" ∨ o = "--help" then Except.error help_message
    else
      processOpts rest
        (if o = "-s" ∨ o = "--streamid" then some v else ds)
        (if o = "-k" ∨ o = "--apikey" then some v else ak)

/-- What `main` returns, or the exception that escapes it. -/
inductive MainResult where
  | code (n : Nat) : MainResult
  | noneReturn : MainResult
  | exc (e : PyError) : MainResult
deriving DecidableEq

/-- A run of the CLI: the result of `main` plus the lines written to
stdout and stderr. -/
structure CliRun where
  result : MainResult
  stdoutLines : List String
  stderrLines : List String
deriving DecidableEq

/-- Python `s.split("/")` on the character list: split at every
slash, keeping empty pieces. -/
def splitSlash : List Char → List Char → List (List Char)
  | [], acc => [acc.reverse]
  | c :: rest, acc =>
    if c = '/' then acc.reverse :: splitSlash rest []
    else splitSlash rest (c :: acc)

/-- `sys.argv[0].split("/")[-1]`. -/
def basename (s : String) : String :=
  String.mk ((splitSlash s.toList []).getLastD [])

/-- The process exit status produced by `sys.exit(main())`:
`sys.exit(None)` exits with status 0, `sys.exit(n)` with status `n`,
and an exception escaping `main` makes the interpreter exit with
status 1. -/
def exitStatus : MainResult → Nat
  | MainResult.code n => n
  | MainResult.noneReturn => 0
  | MainResult.exc _ => 1

/-- `main(argv)` of cosm-feed.py, invoked as `sys.exit(main())` with
`argv = sys.argv`. A `getopt.error` or `-h` becomes `Usage`, printed
to stderr with return value 2. When both `datastream_id` and
`api_key` are set, the line `connection = cosm.CosmDataStream(...)`
is reached — but the module was imported as `pycosm` and no name
`cosm` is bound, so evaluating it raises `NameError('cosm')`, which
propagates out of `main`. Otherwise the missing-argument message is
printed to stdout and `main` falls off the end, returning `None`. -/
def main (argv : List String) : CliRun :=
  match getopt (argv.drop 1) cliShortopts cliLongopts with
  | Except.error e =>
    { result := MainResult.code 2
      stdoutLines := []
      stderrLines := [basename (argv.headD "") ++ ": " ++ e.msg,
                      "\t for help use --help"] }
  | Except.ok (opts, _args) =>
    match processOpts opts none none with
    | Except.error msg =>
      { result := MainResult.code 2
        stdoutLines := []
        stderrLines := [basename (argv.headD "") ++ ": " ++ msg,
                        "\t for help use --help"] }
    | Except.ok (some _ds, some _ak) =>
      { result := MainResult.exc (PyError.nameError "cosm")
        stdoutLines := []
        stderrLines := [] }
    | Except.ok (_, _) =>
      { result := MainResult.noneReturn
        stdoutLines := ["Error: a stream ID and API key must be specified"]
        stderrLines := [] }

end CosmFeed

namespace Pycosm

/-- A network oracle that answers every request with `200 BODY`. -/
def okNet : Net := fun _ => Except.ok ⟨200, "BODY"⟩

/-- A network oracle that fails every request with a connection error. -/
def errNet : Net := fun _ => Except.error "ECONNREFUSED"

/-- A network oracle whose responses carry the body `[]`. -/
def arrNet : Net := fun _ => Except.ok ⟨200, "[]"⟩

/-- A tiny concrete decoder standing in for `json.loads` in witnesses:
it accepts exactly the body `[]`. -/
def loadsArr : String → Option Json :=
  fun b => if b = "[]" then some (Json.arr []) else none

/-- When `feed_id` is unset, `get` raises `StreamIdError(datastream_id)`
and issues no request. -/
theorem get_none (s : CosmDataStream) (net : Net) (h : s.feed_id = none) :
    s.get net = (Except.error (PyError.streamIdError s.datastream_id), []) := by
  unfold CosmDataStream.get
  rw [h]

/-- When `feed_id` is set and the transport succeeds, `get` returns the
response and issued exactly its GET request. -/
theorem get_ok (s : CosmDataStream) (net : Net) (f : String) (r : Response)
    (hf : s.feed_id = some f) (hn : net s.getRequest = Except.ok r) :
    s.get net = (Except.ok r, [s.getRequest]) := by
  unfold CosmDataStream.get
  rw [hf, hn]

/-- When `feed_id` is set and the transport fails, `get` re-raises the
transport error, having issued its GET request. -/
theorem get_err (s : CosmDataStream) (net : Net) (f : String) (e : String)
    (hf : s.feed_id = some f) (hn : net s.getRequest = Except.error e) :
    s.get net = (Except.error (PyError.transportError e), [s.getRequest]) := by
  unfold CosmDataStream.get
  rw [hf, hn]

/-- When `feed_id` is unset, `post` raises and issues no request. -/
theorem post_none (s : CosmDataStream) (net : Net) (b : String)
    (h : s.feed_id = none) :
    s.post net b = (Except.error (PyError.streamIdError s.datastream_id), []) := by
  unfold CosmDataStream.post
  rw [h]

/-- When `feed_id` is set, `post` issues exactly its POST request. -/
theorem post_reqs (s : CosmDataStream) (net : Net) (b : String) (f : String)
    (hf : s.feed_id = some f) :
    (s.post net b).2 = [s.postRequest b] := by
  unfold CosmDataStream.post
  rw [hf]
  cases net (s.postRequest b) <;> rfl

/-- When either identifier is unset, `put` raises and issues no request. -/
theorem put_none (s : CosmDataStream) (net : Net) (b : String)
    (h : s.feed_id = none ∨ s.datastream_id = none) :
    s.put net b = (Except.error (PyError.streamIdError s.datastream_id), []) := by
  unfold CosmDataStream.put
  rcases h with h | h
  · rw [h]
  · rw [h]
    cases s.feed_id <;> rfl

/-- When both identifiers are set and the transport succeeds, `put`
returns the response, having issued exactly its PUT request. -/
theorem put_ok (s : CosmDataStream) (net : Net) (b : String) (f d : String)
    (r : Response) (hf : s.feed_id = some f) (hd : s.datastream_id = some d)
    (hn : net (s.putRequest b) = Except.ok r) :
    s.put net b = (Except.ok r, [s.putRequest b]) := by
  unfold CosmDataStream.put
  rw [hf, hd, hn]

/-- When both identifiers are set and the transport fails, `put`
re-raises the transport error, having issued exactly its PUT request. -/
theorem put_err (s : CosmDataStream) (net : Net) (b : String) (f d : String)
    (e : String) (hf : s.feed_id = some f) (hd : s.datastream_id = some d)
    (hn : net (s.putRequest b) = Except.error e) :
    s.put net b = (Except.error (PyError.transportError e), [s.putRequest b]) := by
  unfold CosmDataStream.put
  rw [hf, hd, hn]

/-- C1: the claim says that every client with `datastream_id` unset has
`get()` fail with `StreamIdError` and make no network call. The client
`(feed_id = "59484", datastream_id = None, api_key = "KEY")` refutes
it: `get()` succeeds against the network oracle and issues a request. -/
theorem C1_counterexample :
    ((CosmDataStream.mk (some "59484") none (some "KEY")).get okNet).1
        = Except.ok ⟨200, "BODY"⟩
      ∧ ((CosmDataStream.mk (some "59484") none (some "KEY")).get okNet).2
        = [(CosmDataStream.mk (some "59484") none (some "KEY")).getRequest] :=
  ⟨rfl, rfl⟩

/-- C1 (amended): `get()` fails with `StreamIdError` and never attempts
a network call exactly when `feed_id` is unset — regardless of the
other fields; with `feed_id` set, `get()` issues its request even if
`datastream_id` is unset. -/
theorem C1_get_guard (s : CosmDataStream) (net : Net) :
    (s.feed_id = none →
      s.get net = (Except.error (PyError.streamIdError s.datastream_id), []))
    ∧ (∀ f, s.feed_id = some f → (s.get net).2 = [s.getRequest]) := by
  refine ⟨fun h => get_none s net h, fun f hf => ?_⟩
  cases hn : net s.getRequest with
  | ok r => rw [get_ok s net f r hf hn]
  | error e => rw [get_err s net f e hf hn]

/-- C1 witness: the all-unset client from `testEmptyConnection`. -/
theorem C1_witness :
    (CosmDataStream.mk none none none).get okNet
      = (Except.error (PyError.streamIdError none), []) :=
  (C1_get_guard (CosmDataStream.mk none none none) okNet).1 rfl

/-- C2: the claim says no request is ever issued unless both
identifiers are present. The client with `feed_id = "59484"` and
`datastream_id = None` refutes it for `post`: the request is issued
(its path containing the formatted `None`). -/
theorem C2_counterexample :
    ((CosmDataStream.mk (some "59484") none (some "KEY")).post okNet "B").2
        = [(CosmDataStream.mk (some "59484") none (some "KEY")).postRequest "B"]
      ∧ ((CosmDataStream.mk (some "59484") none (some "KEY")).postRequest "B").path
        = "/v2/feeds/59484/datastreams/None/datapoints" :=
  ⟨post_reqs _ okNet "B" "59484" rfl, rfl⟩

/-- C2 (amended): `put` issues a request only when both identifiers are
present, but `get` and `post` issue one exactly when `feed_id` is
present, even with `datastream_id` absent; whenever the respective
guard fails, the operation raises `StreamIdError` with no network
activity. -/
theorem C2_request_guards (s : CosmDataStream) (net : Net) (b : String) :
    ((s.get net).2 ≠ [] ↔ s.feed_id ≠ none)
    ∧ ((s.post net b).2 ≠ [] ↔ s.feed_id ≠ none)
    ∧ ((s.put net b).2 ≠ [] ↔ s.feed_id ≠ none ∧ s.datastream_id ≠ none)
    ∧ (s.feed_id = none →
        s.get net = (Except.error (PyError.streamIdError s.datastream_id), [])
          ∧ s.post net b
            = (Except.error (PyError.streamIdError s.datastream_id), []))
    ∧ (s.feed_id = none ∨ s.datastream_id = none →
        s.put net b
          = (Except.error (PyError.streamIdError s.datastream_id), [])) := by
  refine ⟨?_, ?_, ?_, fun h => ⟨get_none s net h, post_none s net b h⟩,
    fun h => put_none s net b h⟩
  · cases hf : s.feed_id with
    | none => rw [get_none s net hf]; simp [hf]
    | some f =>
      cases hn : net s.getRequest with
      | ok r => rw [get_ok s net f r hf hn]; simp [hf]
      | error e => rw [get_err s net f e hf hn]; simp [hf]
  · cases hf : s.feed_id with
    | none => rw [post_none s net b hf]; simp [hf]
    | some f => rw [post_reqs s net b f hf]; simp [hf]
  · cases hf : s.feed_id with
    | none => rw [put_none s net b (Or.inl hf)]; simp [hf]
    | some f =>
      cases hd : s.datastream_id with
      | none => rw [put_none s net b (Or.inr hd)]; simp [hf, hd]
      | some d =>
        cases hn : net (s.putRequest b) with
        | ok r => rw [put_ok s net b f d r hf hd hn]; simp [hf, hd]
        | error e => rw [put_err s net b f d e hf hd hn]; simp [hf, hd]

/-- C2 witness: a client with only the datastream identifier set has
`put` fail with `StreamIdError` and no request issued. -/
theorem C2_witness :
    (CosmDataStream.mk none (some "unittest") none).put okNet "B"
      = (Except.error (PyError.streamIdError (some "unittest")), []) :=
  (C2_request_guards (CosmDataStream.mk none (some "unittest") none)
    okNet "B").2.2.2.2 (Or.inl rfl)

/-- C5: the claim says `put` raises a configuration error exactly when
`get` would. The client `(feed_id = "59484", datastream_id = None)`
refutes it: `put` raises `StreamIdError` while `get` succeeds. -/
theorem C5_counterexample :
    ((CosmDataStream.mk (some "59484") none (some "KEY2")).put okNet "B").1
        = Except.error (PyError.streamIdError none)
      ∧ ((CosmDataStream.mk (some "59484") none (some "KEY2")).get okNet).1
        = Except.ok ⟨200, "BODY"⟩ :=
  ⟨rfl, rfl⟩

/-- C5 (amended): `put(body)` raises `StreamIdError` exactly when
`feed_id` or `datastream_id` is unset, while `get()` raises exactly
when `feed_id` is unset — `put`'s precondition is strictly stronger;
in states where the guard passes, both propagate a transport failure
unchanged. -/
theorem C5_put_vs_get (s : CosmDataStream) (net : Net) (b : String) :
    ((s.put net b).1 = Except.error (PyError.streamIdError s.datastream_id)
        ↔ (s.feed_id = none ∨ s.datastream_id = none))
    ∧ ((s.get net).1 = Except.error (PyError.streamIdError s.datastream_id)
        ↔ s.feed_id = none)
    ∧ (∀ f d e, s.feed_id = some f → s.datastream_id = some d →
        net (s.putRequest b) = Except.error e →
        (s.put net b).1 = Except.error (PyError.transportError e))
    ∧ (∀ f e, s.feed_id = some f → net s.getRequest = Except.error e →
        (s.get net).1 = Except.error (PyError.transportError e)) := by
  refine ⟨?_, ?_, fun f d e hf hd hn => by rw [put_err s net b f d e hf hd hn],
    fun f e hf hn => by rw [get_err s net f e hf hn]⟩
  · constructor
    · intro h
      by_contra hc
      push_neg at hc
      obtain ⟨hf, hd⟩ := hc
      obtain ⟨f, hf⟩ := Option.ne_none_iff_exists.mp hf
      obtain ⟨d, hd⟩ := Option.ne_none_iff_exists.mp hd
      cases hn : net (s.putRequest b) with
      | ok r => rw [put_ok s net b f d r hf.symm hd.symm hn] at h; simp at h
      | error e => rw [put_err s net b f d e hf.symm hd.symm hn] at h; simp at h
    · intro h
      rw [put_none s net b h]
  · constructor
    · intro h
      by_contra hc
      obtain ⟨f, hf⟩ := Option.ne_none_iff_exists.mp hc
      cases hn : net s.getRequest with
      | ok r => rw [get_ok s net f r hf.symm hn] at h; simp at h
      | error e => rw [get_err s net f e hf.symm hn] at h; simp at h
    · intro h
      rw [get_none s net h]

/-- C5 witness: with both identifiers set and a failing transport,
`put` re-raises the transport error unchanged. -/
theorem C5_witness :
    ((CosmDataStream.mk (some "59484") (some "unittest") (some "KEY")).put
        errNet "B").1
      = Except.error (PyError.transportError "ECONNREFUSED") :=
  (C5_put_vs_get (CosmDataStream.mk (some "59484") (some "unittest") (some "KEY"))
    errNet "B").2.2.1 "59484" "unittest" "ECONNREFUSED" rfl rfl rfl

/-- Indexing a duplicate-free dict at one of its own keys yields the
paired value. -/
theorem dictGet_eq (dps : List (String × String)) (k v : String)
    (hnd : (dictKeys dps).Nodup) (hmem : (k, v) ∈ dps) :
    dictGet dps k = v := by
  induction dps with
  | nil => simp at hmem
  | cons kv rest ih =>
    obtain ⟨k', v'⟩ := kv
    simp only [dictKeys, List.map_cons, List.nodup_cons] at hnd
    rcases List.mem_cons.mp hmem with h | h
    · obtain ⟨rfl, rfl⟩ := Prod.mk.injEq k v k' v' ▸ h
      simp [dictGet, List.lookup]
    · have hk : k ≠ k' := by
        intro he
        exact hnd.1 (he ▸ List.mem_map_of_mem Prod.fst h)
      have hb : (k == k') = false := beq_eq_false_iff_ne.mpr hk
      simp only [dictGet, List.lookup, hb]
      exact ih hnd.2 h

/-- Over a duplicate-free dict, the `keys()`-then-index loop of
`postDatapointsDict` lists exactly the dict's pairs in order. -/
theorem postDatapointsBody_eq (dps : List (String × String))
    (hnd : (dictKeys dps).Nodup) :
    postDatapointsBody dps
      = Json.obj [("datapoints", Json.arr (dps.map (fun kv =>
          Json.obj [("at", Json.str kv.1), ("value", Json.str kv.2)])))] := by
  have hlist : (dictKeys dps).map (fun key =>
        Json.obj [("at", Json.str key), ("value", Json.str (dictGet dps key))])
      = dps.map (fun kv =>
        Json.obj [("at", Json.str kv.1), ("value", Json.str kv.2)]) := by
    unfold dictKeys
    rw [List.map_map]
    apply List.map_congr_left
    intro kv hkv
    have hm : (kv.1, kv.2) ∈ dps := by rw [Prod.mk.eta]; exact hkv
    simp only [Function.comp_apply]
    rw [dictGet_eq dps kv.1 kv.2 hnd hm]
  unfold postDatapointsBody
  rw [hlist]

/-- C6: `postDatapointsDict` submits, via `post`, a body whose JSON
value is an object with the single field `datapoints`, an array with
one `at`/`value` object per key of the input mapping; in particular,
for the singleton mapping `2013-01-14T12:00:00Z : 30` the body is the
required one-datapoint document. -/
theorem C6_postDatapoints (s : CosmDataStream) (net : Net) (f : String)
    (dps : List (String × String)) (hf : s.feed_id = some f)
    (hnd : (dictKeys dps).Nodup) :
    (s.postDatapointsDict net dps).2
        = [s.postRequest (dumps (postDatapointsBody dps))]
    ∧ postDatapointsBody dps
        = Json.obj [("datapoints", Json.arr (dps.map (fun kv =>
            Json.obj [("at", Json.str kv.1), ("value", Json.str kv.2)])))]
    ∧ postDatapointsBody [("2013-01-14T12:00:00Z", "30")]
        = Json.obj [("datapoints",
            Json.arr [Json.obj [("at", Json.str "2013-01-14T12:00:00Z"),
                                ("value", Json.str "30")]])] := by
  refine ⟨?_, postDatapointsBody_eq dps hnd, rfl⟩
  unfold CosmDataStream.postDatapointsDict
  exact post_reqs s net _ f hf

/-- C6 witness: the singleton mapping from the spec's testable
property, submitted by the unit-test client. -/
theorem C6_witness :
    ((CosmDataStream.mk (some "59484") (some "unittest") (some "KEY")).postDatapointsDict
        okNet [("2013-01-14T12:00:00Z", "30")]).2
      = [(CosmDataStream.mk (some "59484") (some "unittest") (some "KEY")).postRequest
          (dumps (postDatapointsBody [("2013-01-14T12:00:00Z", "30")]))]
    ∧ postDatapointsBody [("2013-01-14T12:00:00Z", "30")]
      = Json.obj [("datapoints",
          Json.arr [Json.obj [("at", Json.str "2013-01-14T12:00:00Z"),
                              ("value", Json.str "30")]])] :=
  ⟨(C6_postDatapoints (CosmDataStream.mk (some "59484") (some "unittest")
      (some "KEY")) okNet "59484" [("2013-01-14T12:00:00Z", "30")] rfl
      (by simp [dictKeys])).1,
   (C6_postDatapoints (CosmDataStream.mk (some "59484") (some "unittest")
      (some "KEY")) okNet "59484" [("2013-01-14T12:00:00Z", "30")] rfl
      (by simp [dictKeys])).2.2⟩

/-- Whatever `get` raises, it is never the decode error: its only
errors are `StreamIdError` and re-raised transport failures. -/
theorem get_fst_ne_decode (s : CosmDataStream) (net : Net) :
    (s.get net).1 ≠ Except.error PyError.decodeError := by
  cases hf : s.feed_id with
  | none => rw [get_none s net hf]; simp
  | some f =>
    cases hn : net s.getRequest with
    | ok r => rw [get_ok s net f r hf hn]; simp
    | error e => rw [get_err s net f e hf hn]; simp

/-- C7: `getDict` raises the decode error exactly when `get()`
succeeded and the response body is malformed for the decoder; on a
well-formed body it returns the decoder's full value, and every value
it returns is the full decoding of the body `get()` produced. -/
theorem C7_getDict (s : CosmDataStream) (net : Net)
    (loads : String → Option Json) :
    ((s.getDict net loads).1 = Except.error PyError.decodeError
        ↔ ∃ r, (s.get net).1 = Except.ok r ∧ loads r.body = none)
    ∧ (∀ r j, (s.get net).1 = Except.ok r → loads r.body = some j →
        (s.getDict net loads).1 = Except.ok j)
    ∧ (∀ j, (s.getDict net loads).1 = Except.ok j →
        ∃ r, (s.get net).1 = Except.ok r ∧ loads r.body = some j) := by
  have hnd := get_fst_ne_decode s net
  simp only [CosmDataStream.getDict]
  rcases hg : s.get net with ⟨res, reqs⟩
  rw [hg] at hnd
  cases res with
  | ok r =>
    cases hl : loads r.body with
    | some j =>
      simp only [hl]
      refine ⟨by simp [hl], ?_, ?_⟩
      · intro r' j' hr hl'
        obtain rfl : r = r' := by simpa using hr
        rw [hl] at hl'
        obtain rfl : j = j' := by simpa using hl'
        rfl
      · intro j' hj
        refine ⟨r, by simp, ?_⟩
        rw [hl]
        simpa using hj
    | none =>
      simp only [hl]
      refine ⟨?_, ?_, ?_⟩
      · simp [hl]
      · intro r' j' hr hl'
        obtain rfl : r = r' := by simpa using hr
        rw [hl] at hl'
        simp at hl'
      · intro j' hj
        simp at hj
  | error e =>
    have he : e ≠ PyError.decodeError := by
      intro h
      exact hnd (by rw [h])
    refine ⟨by simp [he], ?_, ?_⟩
    · intro r' j' hr hl'
      simp at hr
    · intro j' hj
      simp at hj

/-- C7 witness: a response body `[]` decoded by a concrete decoder. -/
theorem C7_witness :
    ((CosmDataStream.mk (some "59484") (some "unittest") (some "KEY")).getDict
        arrNet loadsArr).1
      = Except.ok (Json.arr []) :=
  (C7_getDict (CosmDataStream.mk (some "59484") (some "unittest") (some "KEY"))
    arrNet loadsArr).2.1 ⟨200, "[]"⟩ (Json.arr []) rfl rfl

/-- C8: when `get()`'s guard holds it issues exactly one GET request,
whose path is `/v2/feeds/{feed}/datastreams/{stream}` formatted (as
`%s` does) from the client's identifiers, and whose headers carry
`X-ApiKey` set to the client's `api_key` and `Accept` set to
`application/json`. -/
theorem C8_request_shape (s : CosmDataStream) (net : Net) (f : String)
    (hf : s.feed_id = some f) :
    (s.get net).2 = [s.getRequest]
    ∧ s.getRequest.method = "GET"
    ∧ s.getRequest.path
        = "/v2/feeds/" ++ f ++ "/datastreams/" ++ pyFormat s.datastream_id
    ∧ ("X-ApiKey", s.api_key) ∈ s.getRequest.headers
    ∧ ("Accept", some "application/json") ∈ s.getRequest.headers := by
  refine ⟨?_, rfl, ?_, ?_, ?_⟩
  · cases hn : net s.getRequest with
    | ok r => rw [get_ok s net f r hf hn]
    | error e => rw [get_err s net f e hf hn]
  · simp [CosmDataStream.getRequest, pyFormat, hf]
  · simp [CosmDataStream.getRequest]
  · simp [CosmDataStream.getRequest]

/-- C8 witness: the unit-test client of `testAuthenticatedConnection`. -/
theorem C8_witness :
    ((CosmDataStream.mk (some "59484") (some "unittest") (some "KEY")).get
        okNet).2
      = [(CosmDataStream.mk (some "59484") (some "unittest") (some "KEY")).getRequest]
    ∧ (CosmDataStream.mk (some "59484") (some "unittest") (some "KEY")).getRequest.path
      = "/v2/feeds/" ++ "59484" ++ "/datastreams/" ++ pyFormat (some "unittest") :=
  ⟨((C8_request_shape (CosmDataStream.mk (some "59484") (some "unittest")
      (some "KEY")) okNet "59484" rfl).1),
   ((C8_request_shape (CosmDataStream.mk (some "59484") (some "unittest")
      (some "KEY")) okNet "59484" rfl).2.2.1)⟩

/-- C9: `delete()` is a `pass` body — for every client it returns
`None`, raises nothing, and issues no request. -/
theorem C9_delete_noop (s : CosmDataStream) :
    s.delete = (Except.ok (), []) :=
  rfl

/-- C3: the claim says that a CLI invocation missing the required
options prints a usage error and exits non-zero. Invoking with no
options at all refutes it: the missing-argument message is printed,
but `main` falls off the end returning `None`, and
`sys.exit(main())` then exits with status 0. -/
theorem C3_counterexample :
    CosmFeed.main ["cosm-feed.py"]
        = ⟨CosmFeed.MainResult.noneReturn,
           ["Error: a stream ID and API key must be specified"], []⟩
      ∧ CosmFeed.exitStatus (CosmFeed.main ["cosm-feed.py"]).result = 0 :=
  ⟨rfl, rfl⟩

/-- C3 (amended): when option parsing fails, or `-h`/`--help` is
given, the CLI prints a usage message to stderr and exits with code 2;
when parsing succeeds but the stream id or API key is missing, it
prints an error message to stdout and returns `None`, so the process
exits with status 0, not a non-zero status. -/
theorem C3_exit_behavior (argv : List String) :
    (∀ e, CosmFeed.getopt (argv.drop 1) CosmFeed.cliShortopts CosmFeed.cliLongopts
        = Except.error e →
      (CosmFeed.main argv).result = CosmFeed.MainResult.code 2
        ∧ CosmFeed.exitStatus (CosmFeed.main argv).result = 2)
    ∧ (∀ opts rest msg,
        CosmFeed.getopt (argv.drop 1) CosmFeed.cliShortopts CosmFeed.cliLongopts
          = Except.ok (opts, rest) →
        CosmFeed.processOpts opts none none = Except.error msg →
        (CosmFeed.main argv).result = CosmFeed.MainResult.code 2
          ∧ CosmFeed.exitStatus (CosmFeed.main argv).result = 2)
    ∧ (∀ opts rest ds ak,
        CosmFeed.getopt (argv.drop 1) CosmFeed.cliShortopts CosmFeed.cliLongopts
          = Except.ok (opts, rest) →
        CosmFeed.processOpts opts none none = Except.ok (ds, ak) →
        ds = none ∨ ak = none →
        (CosmFeed.main argv).result = CosmFeed.MainResult.noneReturn
          ∧ (CosmFeed.main argv).stdoutLines
              = ["Error: a stream ID and API key must be specified"]
          ∧ CosmFeed.exitStatus (CosmFeed.main argv).result = 0) := by
  refine ⟨?_, ?_, ?_⟩
  · intro e hg
    unfold CosmFeed.main
    rw [hg]
    exact ⟨rfl, rfl⟩
  · intro opts rest msg hg hp
    unfold CosmFeed.main
    rw [hg]
    dsimp only
    rw [hp]
    exact ⟨rfl, rfl⟩
  · intro opts rest ds ak hg hp hmiss
    unfold CosmFeed.main
    rw [hg]
    dsimp only
    rw [hp]
    rcases hmiss with h | h
    · subst h
      exact ⟨rfl, rfl, rfl⟩
    · subst h
      cases ds with
      | none => exact ⟨rfl, rfl, rfl⟩
      | some v => exact ⟨rfl, rfl, rfl⟩

/-- C3 witness: the empty invocation takes the missing-options branch. -/
theorem C3_witness :
    (CosmFeed.main ["cosm-feed.py"]).result = CosmFeed.MainResult.noneReturn
      ∧ (CosmFeed.main ["cosm-feed.py"]).stdoutLines
          = ["Error: a stream ID and API key must be specified"]
      ∧ CosmFeed.exitStatus (CosmFeed.main ["cosm-feed.py"]).result = 0 :=
  (C3_exit_behavior ["cosm-feed.py"]).2.2 [] [] none none rfl rfl (Or.inl rfl)

/-- C4: with both required options present the CLI reaches
`connection = cosm.CosmDataStream(datastream_id, api_key)` — but the
module was imported as `pycosm` and no name `cosm` exists, so the run
raises `NameError` instead of constructing a client, calling
`getDict()`, and printing; nothing is printed and the process dies
with the uncaught exception. -/
theorem C4_cli_name_error :
    CosmFeed.main ["cosm-feed.py", "-s", "3194", "-k", "KEY"]
        = ⟨CosmFeed.MainResult.exc (PyError.nameError "cosm"), [], []⟩
      ∧ CosmFeed.exitStatus
          (CosmFeed.main ["cosm-feed.py", "-s", "3194", "-k", "KEY"]).result
        = 1 :=
  ⟨rfl, rfl⟩

/-- C10: `StreamIdError.__init__` stores its argument under the
attribute `value`, so construction succeeds for every argument, but
`__str__` reads the never-set attribute `datastream_id` and therefore
raises `AttributeError` for every instance so constructed. -/
theorem C10_str_attribute_error (d : Option String) :
    StreamIdError.init d = ⟨[("value", d)]⟩
    ∧ (StreamIdError.init d).str
      = Except.error (PyError.attributeError "datastream_id") :=
  ⟨rfl, rfl⟩

end Pycosm
